import Mathlib

/-!
Verification of the MoEngage documentation analyzer.

The Python sources under `src/` are shallowly embedded here.  Text is
represented as `List Char` (the character sequence of a Python `str`),
and the string primitives used by the analyzer (`str.split()`,
`str.split('.')`, `str.strip()`, `str.lower()`, substring membership
`in`, `str.replace`) are given executable Lean counterparts with the
same semantics on the inputs the analyzer uses.  Numeric scores are
`Int`/`Nat`; readability indices are `ℚ`.  A Python expression that can
raise `ZeroDivisionError` is embedded through `safeDiv`, which returns
`none` exactly when the Python code would raise.
-/

namespace DocAnalyzer

/-- Text is the character sequence of a Python string. -/
abbrev Text := List Char

/-- Whitespace characters recognised by Python `str.split()` / `str.strip()`
(ASCII subset; all analyzer inputs are ASCII). -/
def isSpaceChar (c : Char) : Bool :=
  c = ' ' || c = '\t' || c = '\n' || c = '\r' || c = '\x0b' || c = '\x0c'

/-- Helper for `splitWords`: accumulates the current (reversed) word. -/
def splitWordsAux : Text → Text → List Text
  | [], acc => if acc = [] then [] else [acc.reverse]
  | c :: cs, acc =>
    if isSpaceChar c then
      if acc = [] then splitWordsAux cs [] else acc.reverse :: splitWordsAux cs []
    else splitWordsAux cs (c :: acc)

/-- Python `str.split()` with no argument: split on runs of whitespace,
discarding empty pieces. -/
def splitWords (t : Text) : List Text := splitWordsAux t []

/-- Python `str.split(sep)` for a single-character separator: keeps empty
pieces, result is always nonempty. -/
def splitOnChar (sep : Char) : Text → List Text
  | [] => [[]]
  | c :: cs =>
    if c = sep then [] :: splitOnChar sep cs
    else
      match splitOnChar sep cs with
      | [] => [[c]]
      | r :: rs => (c :: r) :: rs

/-- Python `str.strip()`: drop leading and trailing whitespace. -/
def strip (t : Text) : Text :=
  ((t.dropWhile isSpaceChar).reverse.dropWhile isSpaceChar).reverse

/-- Python `str.lower()` (ASCII). -/
def toLowerT (t : Text) : Text := t.map Char.toLower

/-- Whether `pat` is a prefix of `t` (Boolean, executable). -/
def isPrefixT : Text → Text → Bool
  | [], _ => true
  | _ :: _, [] => false
  | a :: as, b :: bs => a = b && isPrefixT as bs

/-- Python substring membership `pat in t`. -/
def containsSub (pat : Text) : Text → Bool
  | [] => isPrefixT pat []
  | c :: cs => isPrefixT pat (c :: cs) || containsSub pat cs

set_option linter.unusedVariables false in
/-- Python `str.replace(old, new)` for nonempty `old` (every call site in the
sources passes a nonempty pattern): replace left-to-right, non-overlapping. -/
def replaceAll (pat rep : Text) : Text → Text
  | [] => []
  | c :: cs =>
    if hcond : pat ≠ [] ∧ isPrefixT pat (c :: cs) = true then
      rep ++ replaceAll pat rep ((c :: cs).drop pat.length)
    else
      c :: replaceAll pat rep cs
termination_by t => t.length
decreasing_by
  · simp only [List.length_drop, List.length_cons]
    have : 0 < pat.length := List.length_pos.mpr hcond.1
    omega
  · simp

/-- Sentence segmentation shared by the analyzer components
(`content.replace('!', '.').replace('?', '.').split('.')`, each piece
stripped, empties dropped). -/
def sentencesOf (t : Text) : List Text :=
  ((splitOnChar '.' (t.map fun c => if c = '!' || c = '?' then '.' else c)).map strip).filter
    (fun s => s ≠ [])

/-- Punctuation class of the regex `[.!?]+` used by the revision agent. -/
def isPunctChar (c : Char) : Bool := c = '.' || c = '!' || c = '?'

/-- Helper for `splitPunctRuns`, accumulating the current (reversed) piece. -/
def splitPunctRunsAux : Text → Text → List Text
  | [], acc => [acc.reverse]
  | c :: cs, acc =>
    if isPunctChar c then acc.reverse :: splitPunctRunsAux (cs.dropWhile isPunctChar) []
    else splitPunctRunsAux cs (c :: acc)
termination_by t _ => t.length
decreasing_by
  · have := ((List.dropWhile_suffix isPunctChar (l := cs)).sublist).length_le
    simp only [List.length_cons]
    omega
  · simp

/-- Python `re.split(r'[.!?]+', t)`: split on maximal runs of `.`, `!`, `?`. -/
def splitPunctRuns (t : Text) : List Text := splitPunctRunsAux t []

/-- Guarded rational division: `none` exactly where Python `/` raises
`ZeroDivisionError`. -/
def safeDiv (a b : ℚ) : Option ℚ := if b = 0 then none else some (a / b)

/-! ## AnalysisEngine dimension scorers (src/agent1_analyser.py 622-883)

The readability scorer obtains its three indices either from the external
`textstat` library (`try` branch) or from the closed-form fallback
(`except` branch).  The indices are therefore parameters `fk fog ease`
of the scorer; `agent1FallbackMetrics` is the `except`-branch computation
of those parameters from the content. -/

/-- Jargon table of `AnalysisEngine._detect_jargon` (membership tests are
case-sensitive, as in the source: `if jargon in content`). -/
def jargonTable : List (String × String) :=
  [("SDK", "software development kit"), ("API", "programming interface"),
   ("implementation", "setup"), ("configuration", "settings"),
   ("instantiate", "create"), ("utilize", "use"), ("facilitate", "help")]

/-- `AnalysisEngine._detect_jargon`: jargon terms occurring in the content. -/
def detectJargon (content : Text) : List (String × String) :=
  jargonTable.filter fun p => containsSub p.1.data content

/-- Sentences of the content longer than 25 words
(`_analyze_readability`, lines 700-701). -/
def longSentences (content : Text) : List Text :=
  (sentencesOf content).filter fun s => (splitWords s).length > 25

/-- Marketer-specific readability score: a step function of the
Flesch reading-ease index (`_analyze_readability`, lines 669-683). -/
def scoreOfEase (ease : ℚ) : Nat :=
  if ease ≥ 70 then 95
  else if ease ≥ 60 then 80
  else if ease ≥ 50 then 65
  else if ease ≥ 40 then 45
  else 25

/-- Assessment label paired with each ease bucket. -/
def assessmentOfEase (ease : ℚ) : String :=
  if ease ≥ 70 then "Excellent for marketers"
  else if ease ≥ 60 then "Good for marketers"
  else if ease ≥ 50 then "Acceptable for marketers"
  else if ease ≥ 40 then "Challenging for marketers"
  else "Too complex for marketers"

/-- Readability suggestions.  The source builds f-strings; each suggestion is
embedded as a constructor carrying the data interpolated into the string. -/
inductive RSuggestion
  /-- "Reading level is Grade {fk} - aim for Grade 8-10 for marketing teams" -/
  | gradeLevel (fk : ℚ)
  /-- "Gunning Fog index is {fog} - reduce sentence complexity and technical terms" -/
  | fogIndex (fog : ℚ)
  /-- "Replace technical jargon: {found[:3]} with marketer-friendly terms" -/
  | jargon (found : List (String × String))
  /-- "Break up {n} sentences longer than 25 words" -/
  | longSentenceCount (n : Nat)
  /-- "Readability is appropriate for marketing professionals" -/
  | affirming
deriving DecidableEq

/-- Suggestion list of `_analyze_readability` (lines 686-706). -/
def readabilitySuggestions (content : Text) (fk fog : ℚ) : List RSuggestion :=
  let s1 : List RSuggestion := if fk > 10 then [.gradeLevel fk] else []
  let s2 : List RSuggestion := if fog > 12 then [.fogIndex fog] else []
  let jargonFound := detectJargon content
  let s3 : List RSuggestion := if jargonFound ≠ [] then [.jargon (jargonFound.take 3)] else []
  let s4 : List RSuggestion :=
    if longSentences content ≠ [] then [.longSentenceCount (longSentences content).length] else []
  let all := s1 ++ s2 ++ s3 ++ s4
  if all = [] then [.affirming] else all

/-- Result of one dimension scorer. -/
structure DimResult (σ : Type) where
  score : Int
  assessment : String
  suggestions : List σ
deriving DecidableEq

/-- `AnalysisEngine._analyze_readability`, given the three readability
indices (from `textstat` or from the fallback computation). -/
def analyze_readability (content : Text) (fk fog ease : ℚ) : DimResult RSuggestion :=
  { score := (scoreOfEase ease : Int)
    assessment := assessmentOfEase ease
    suggestions := readabilitySuggestions content fk fog }

/-- The `except`-branch metric computation of `_analyze_readability`
(lines 660-666); the division by the sentence count is guarded by
`if sentences else 20`. -/
def agent1FallbackMetrics (content : Text) : Option (ℚ × ℚ × ℚ) := do
  let words := splitWords content
  let sentences := sentencesOf content
  let avg ← if sentences = [] then some 20
            else safeDiv (words.length : ℚ) (sentences.length : ℚ)
  some (avg * 0.39 + 11.8 - 15.59, avg * 0.4 + 12, 206.835 - 1.015 * avg)

/-- Structure-dimension suggestions (`_analyze_structure`). -/
inductive SSuggestion
  /-- "Add more section headings to improve navigation ..." -/
  | addHeadings
  /-- "Consider consolidating sections - too many headings can confuse users" -/
  | consolidateHeadings
  /-- "Convert dense text to bullet points or numbered lists for better scannability" -/
  | addLists
  /-- "Break up {n} paragraphs longer than 100 words" -/
  | splitParagraphs (n : Nat)
  /-- "Add numbered steps for how-to procedures" -/
  | addSteps
  /-- "Document structure supports good user experience" -/
  | affirming
deriving DecidableEq

/-- The structured data handed to `_analyze_structure` (the scraped dict:
headings as (level, text), lists as (kind, items), paragraph texts). -/
structure ScrapedData where
  headings : List (String × String)
  lists : List (String × List String)
  paragraphs : List Text
deriving DecidableEq

/-- Heading-count check of `_analyze_structure` (lines 750-755):
penalty and suggestion. -/
def headingCheck (n : Nat) : Int × List SSuggestion :=
  if n < 3 then (15, [.addHeadings])
  else if n > 8 then (5, [.consolidateHeadings])
  else (0, [])

/-- List-usage check (lines 758-760). -/
def listCheck (lists : List (String × List String)) : Int × List SSuggestion :=
  if lists = [] then (10, [.addLists]) else (0, [])

/-- Long-paragraph check (lines 763-767), guarded by `if paragraphs:`. -/
def paragraphCheck (paragraphs : List Text) : Int × List SSuggestion :=
  if paragraphs ≠ [] then
    let longParas := paragraphs.filter fun p => (splitWords p).length > 100
    if longParas ≠ [] then (10, [.splitParagraphs longParas.length]) else (0, [])
  else (0, [])

/-- Step-by-step check (lines 770-773): `has_steps` is
`'1.' in content or 'step' in content.lower()`. -/
def stepCheck (content : Text) : Int × List SSuggestion :=
  let hasSteps := containsSub "1.".data content || containsSub "step".data (toLowerT content)
  if containsSub "how to".data (toLowerT content) ∧ hasSteps = false then
    (10, [.addSteps])
  else (0, [])

/-- `AnalysisEngine._analyze_structure` (lines 739-784): base 70, penalties,
floor 30.  The assessment compares the pre-clamp score with 75. -/
def analyze_structure (content : Text) (d : ScrapedData) : DimResult SSuggestion :=
  let c1 := headingCheck d.headings.length
  let c2 := listCheck d.lists
  let c3 := paragraphCheck d.paragraphs
  let c4 := stepCheck content
  let score : Int := 70 - c1.1 - c2.1 - c3.1 - c4.1
  let sugg := c1.2 ++ c2.2 ++ c3.2 ++ c4.2
  { score := max 30 score
    assessment := if score ≥ 75 then "Well-organized for marketers" else "Structure needs improvement"
    suggestions := if sugg = [] then [.affirming] else sugg }

/-- Completeness-dimension suggestions (`_analyze_completeness`). -/
inductive CSuggestion
  /-- "Add concrete examples to help marketers understand practical applications" -/
  | addExamples
  /-- "Include troubleshooting section for common issues marketers might face" -/
  | addTroubleshooting
  /-- "Add prerequisites section to set expectations" -/
  | addPrerequisites
  /-- "Content seems brief - consider adding more detailed explanations" -/
  | expandContent
  /-- "Content is quite long - consider breaking into multiple focused articles" -/
  | splitArticle
  /-- "Add business value explanation to help marketers understand importance" -/
  | addBusinessValue
  /-- "Content provides comprehensive information for marketer success" -/
  | affirming
deriving DecidableEq

/-- Example markers of `_analyze_completeness` (line 793). -/
def hasExamples (content : Text) : Bool :=
  ["example", "for instance", "such as"].any fun t => containsSub t.data (toLowerT content)

/-- Troubleshooting markers (line 799). -/
def hasTroubleshooting (content : Text) : Bool :=
  ["troubleshoot", "problem", "issue"].any fun t => containsSub t.data (toLowerT content)

/-- Prerequisite markers (line 805). -/
def hasPrerequisites (content : Text) : Bool :=
  ["prerequisite", "before", "first"].any fun t => containsSub t.data (toLowerT content)

/-- Business-value markers (line 820). -/
def hasBusinessValue (content : Text) : Bool :=
  ["benefit", "improve", "increase", "optimize"].any fun t => containsSub t.data (toLowerT content)

/-- Word-count depth check of `_analyze_completeness` (lines 811-817). -/
def wordCountCheck (wc : Nat) : Int × List CSuggestion :=
  if wc < 300 then (15, [.expandContent])
  else if wc > 2000 then (5, [.splitArticle])
  else (0, [])

/-- `AnalysisEngine._analyze_completeness` (lines 786-834): base 70,
penalties, floor 30; assessment compares the pre-clamp score with 70. -/
def analyze_completeness (content : Text) : DimResult CSuggestion :=
  let c1 : Int × List CSuggestion := if hasExamples content then (0, []) else (15, [.addExamples])
  let c2 : Int × List CSuggestion :=
    if hasTroubleshooting content then (0, []) else (10, [.addTroubleshooting])
  let c3 : Int × List CSuggestion :=
    if hasPrerequisites content then (0, []) else (5, [.addPrerequisites])
  let c4 := wordCountCheck (splitWords content).length
  let c5 : Int × List CSuggestion :=
    if hasBusinessValue content then (0, []) else (10, [.addBusinessValue])
  let score : Int := 70 - c1.1 - c2.1 - c3.1 - c4.1 - c5.1
  let sugg := c1.2 ++ c2.2 ++ c3.2 ++ c4.2 ++ c5.2
  { score := max 30 score
    assessment := if score ≥ 70 then "Complete for marketer needs" else "Missing key information"
    suggestions := if sugg = [] then [.affirming] else sugg }

/-- Style-dimension suggestions (`_analyze_style`). -/
inductive StSuggestion
  /-- "Use second-person language (you, your) to make instructions more personal" -/
  | useSecondPerson
  /-- "Use more action-oriented language with specific verbs" -/
  | useActionVerbs
  /-- "Reduce passive voice - use active voice for clearer instructions" -/
  | reducePassive
  /-- "Eliminate wordy phrases for more concise communication" -/
  | removeWordy
  /-- "Use consistent terminology throughout (choose one login spelling)" -/
  | consistentTerms
  /-- "Writing style follows good practices for marketing audience" -/
  | affirming
deriving DecidableEq

/-- The contraction markers of the second-person check; the apostrophe is
written via its code point. -/
def youllMarker : Text := ['y', 'o', 'u', Char.ofNat 39, 'l', 'l']

/-- Second contraction marker of the second-person check. -/
def youreMarker : Text := ['y', 'o', 'u', Char.ofNat 39, 'r', 'e']

/-- Second-person detection of `_analyze_style` (line 843): membership of
the space-delimited words and the two contractions in the lowercased text. -/
def hasSecondPerson (content : Text) : Bool :=
  ([" you ".data, " your ".data, youllMarker, youreMarker]).any fun t =>
    containsSub t (toLowerT content)

/-- Action-verb count of `_analyze_style` (lines 849-850). -/
def actionCount (content : Text) : Nat :=
  (["click", "select", "navigate", "access", "configure", "set up"].filter fun w =>
    containsSub w.data (toLowerT content)).length

/-- Passive-indicator count (lines 856-857). -/
def passiveCount (content : Text) : Nat :=
  (["is configured", "are displayed", "was created", "were sent"].filter fun w =>
    containsSub w.data (toLowerT content)).length

/-- Wordy phrases found (lines 863-864). -/
def wordyFound (content : Text) : List String :=
  ["in order to", "due to the fact that", "at this point in time"].filter fun w =>
    containsSub w.data (toLowerT content)

/-- Terminology-consistency check (line 870). -/
def loginInconsistent (content : Text) : Bool :=
  containsSub "login".data (toLowerT content) && containsSub "log in".data (toLowerT content)

/-- `AnalysisEngine._analyze_style` (lines 836-883): base 75, penalties,
floor 40; assessment compares the pre-clamp score with 70. -/
def analyze_style (content : Text) : DimResult StSuggestion :=
  let c1 : Int × List StSuggestion :=
    if hasSecondPerson content then (0, []) else (15, [.useSecondPerson])
  let c2 : Int × List StSuggestion := if actionCount content < 3 then (10, [.useActionVerbs]) else (0, [])
  let c3 : Int × List StSuggestion := if passiveCount content > 3 then (10, [.reducePassive]) else (0, [])
  let c4 : Int × List StSuggestion := if wordyFound content ≠ [] then (5, [.removeWordy]) else (0, [])
  let c5 : Int × List StSuggestion := if loginInconsistent content then (5, [.consistentTerms]) else (0, [])
  let score : Int := 75 - c1.1 - c2.1 - c3.1 - c4.1 - c5.1
  let sugg := c1.2 ++ c2.2 ++ c3.2 ++ c4.2 ++ c5.2
  { score := max 40 score
    assessment := if score ≥ 70 then "Appropriate style for marketers" else "Style needs improvement"
    suggestions := if sugg = [] then [.affirming] else sugg }

/-! ## Report synthesis (MoEngageAnalyzer, src/agent1_analyser.py 101-278) -/

/-- The four analysis dimensions, in the iteration order of the
`analysis_results` dict. -/
inductive Category
  | readability
  /-- the structure dimension -/
  | structureDim
  | completeness
  | style
deriving DecidableEq

/-- Fixed synthesis weights (`_synthesize_results`, line 112). -/
def weightOf : Category → ℚ
  | .readability => 0.4
  | .structureDim => 0.2
  | .completeness => 0.25
  | .style => 0.15

/-- Weighted overall score (`_synthesize_results`, lines 114-117): dot
product of the four dimension scores with the weights, in dict order. -/
def weightedScore (r s c st : ℚ) : ℚ :=
  r * weightOf .readability + s * weightOf .structureDim +
    c * weightOf .completeness + st * weightOf .style

/-- Python `round` on exact values: round half to even. -/
def roundHalfEven (q : ℚ) : ℤ :=
  let f := ⌊q⌋
  if q - f < 1 / 2 then f
  else if q - f > 1 / 2 then f + 1
  else if f % 2 = 0 then f else f + 1

/-- Python `round(x, 1)`. -/
def round1 (q : ℚ) : ℚ := (roundHalfEven (q * 10) : ℚ) / 10

/-- `MoEngageAnalyzer._calculate_grade` (lines 272-278). -/
def calculate_grade (score : ℚ) : String :=
  if score ≥ 90 then "A"
  else if score ≥ 80 then "B"
  else if score ≥ 70 then "C"
  else if score ≥ 60 then "D"
  else "F"

/-- Marketer-accessibility tier (`_synthesize_results`, line 145). -/
def accessibilityTier (weighted : ℚ) : String :=
  if weighted ≥ 75 then "High" else if weighted ≥ 60 then "Medium" else "Low"

/-! ## Suggestion ranker (MoEngageAnalyzer._generate_action_items, 151-236) -/

/-- Priority levels of an action item. -/
inductive Priority
  | CRITICAL
  | HIGH
  | MEDIUM
  | LOW
deriving DecidableEq

/-- The `priority_order` map (line 185). -/
def priorityOrder : Priority → Nat
  | .CRITICAL => 4
  | .HIGH => 3
  | .MEDIUM => 2
  | .LOW => 1

/-- Priority derivation of `_generate_action_items` (lines 165-172). -/
def priorityFor (category : Category) (score : Int) : Priority :=
  if category = .readability ∧ score < 70 then .CRITICAL
  else if score < 60 then .HIGH
  else if score < 80 then .MEDIUM
  else .LOW

/-- `MoEngageAnalyzer._estimate_impact` (lines 214-224). -/
def estimateImpact (category : Category) (score : Int) : Nat :=
  match category with
  | .readability => if score < 60 then 10 else 7
  | .structureDim => if score < 70 then 6 else 4
  | .completeness => if score < 65 then 8 else 5
  | .style => if score < 75 then 5 else 3

/-- `MoEngageAnalyzer._estimate_effort` (lines 226-236). -/
def estimateEffort (suggestion : String) : String :=
  let lower := toLowerT suggestion.data
  if ["add", "include", "create"].any (fun t => containsSub t.data lower) then "Medium"
  else if ["replace", "change", "simplify"].any (fun t => containsSub t.data lower) then "Low"
  else if ["restructure", "reorganize"].any (fun t => containsSub t.data lower) then "High"
  else "Low"

/-- One prioritized recommendation row.  `rationaleScore` is the score
interpolated into the rationale f-string. -/
structure ActionItem where
  category : Category
  priority : Priority
  action : String
  rationaleScore : Int
  expected_impact : Nat
  effort_estimate : String
deriving DecidableEq

/-- The action items accumulated by the loop of `_generate_action_items`
(lines 158-182), before sorting. -/
def rawActionItems (results : List (Category × Int × List String)) : List ActionItem :=
  results.flatMap fun r =>
    r.2.2.map fun suggestion =>
      { category := r.1
        priority := priorityFor r.1 r.2.1
        action := suggestion
        rationaleScore := r.2.1
        expected_impact := estimateImpact r.1 r.2.1
        effort_estimate := estimateEffort suggestion }

/-- The sort key of line 187: `(priority_order[priority], expected_impact)`. -/
def itemKey (x : ActionItem) : Nat × Nat := (priorityOrder x.priority, x.expected_impact)

/-- Strict lexicographic order on sort keys. -/
def keyLt (p q : Nat × Nat) : Bool :=
  decide (p.1 < q.1 ∨ (p.1 = q.1 ∧ p.2 < q.2))

/-- Stable descending insertion: `a` is placed before the first element whose
key is not strictly greater, so elements with equal keys keep their original
order — the semantics of Python's stable `list.sort(key=..., reverse=True)`. -/
def insertDesc (a : ActionItem) : List ActionItem → List ActionItem
  | [] => [a]
  | b :: bs => if keyLt (itemKey a) (itemKey b) then b :: insertDesc a bs else a :: b :: bs

/-- Stable descending sort by `itemKey` (line 186-189). -/
def sortDesc : List ActionItem → List ActionItem
  | [] => []
  | a :: as => insertDesc a (sortDesc as)

/-- `MoEngageAnalyzer._generate_action_items`: build, stable-sort descending
by `(priority rank, expected impact)`, truncate to the top 8 (line 191). -/
def generate_action_items (results : List (Category × Int × List String)) : List ActionItem :=
  (sortDesc (rawActionItems results)).take 8

/-! ## AdvancedAnalyzer readability scorer (src/llm_integration.py 161-183) -/

/-- Jargon list of `AdvancedAnalyzer.calculate_readability_score`
(line 174); the source compares `term.lower() in content.lower()`. -/
def llmJargonTerms : List String := ["sdk", "api", "configure", "implementation", "instantiate"]

/-- `AdvancedAnalyzer.calculate_readability_score` (lines 161-183).  The
division `len(complex_words) / len(content.split())` on line 180 is not
guarded, so the result is `none` when the content has no words (Python
raises `ZeroDivisionError` there). -/
def llmCalculateReadabilityScore (content : Text) (avg : ℚ) : Option Int := do
  let base : Int := 80
  let s1 : Int :=
    if avg > 25 then base - 30
    else if avg > 20 then base - 15
    else if avg > 15 then base - 5
    else base
  let jargonCount := (llmJargonTerms.filter fun t => containsSub t.data (toLowerT content)).length
  let s2 : Int := s1 - jargonCount * 5
  let words := splitWords content
  let complexWords := words.filter fun w => w.length > 8
  let ratio ← safeDiv (complexWords.length : ℚ) (words.length : ℚ)
  let s3 : Int := if ratio > 0.15 then s2 - 10 else s2
  some (max 20 (min 100 s3))

/-! ## Degenerate-input guards (C7 sources) -/

/-- Output of `MoEngageAnalyzer._assess_complexity`. -/
structure ComplexityInfo where
  avg_sentence_length : ℚ
  jargon_density : Nat
  complex_word_ratio : ℚ
  estimated_reading_level : ℚ
deriving DecidableEq

/-- Python `round(x, 3)`. -/
def round3 (q : ℚ) : ℚ := (roundHalfEven (q * 1000) : ℚ) / 1000

/-- `MoEngageAnalyzer._assess_complexity` (lines 193-212).  Every division
is behind an `if sentences`/`if words` guard in the source; the guards are
kept and the divisions go through `safeDiv`. -/
def assessComplexity (content : Text) : Option ComplexityInfo := do
  let words := splitWords content
  let sentences := sentencesOf content
  let jargonTerms : List String :=
    ["API", "SDK", "implementation", "configuration", "instantiate", "parameters"]
  let jargonCount := (jargonTerms.filter fun t => containsSub t.data content).length
  let complexWords := words.filter fun w => w.length > 8
  let ratio ← if words = [] then some 0
              else safeDiv (complexWords.length : ℚ) (words.length : ℚ)
  let avg ← if sentences = [] then some 0
            else safeDiv (words.length : ℚ) (sentences.length : ℚ)
  let level ← if sentences = [] then some 12
              else do
                let a ← safeDiv (words.length : ℚ) (sentences.length : ℚ)
                some (min 16 (max 6 (a * 0.4 + 5)))
  some { avg_sentence_length := avg
         jargon_density := jargonCount
         complex_word_ratio := round3 ratio
         estimated_reading_level := level }

/-- Output of `DocumentRevisionAgent.get_content_stats`. -/
structure ContentStats where
  words : Nat
  sentences : Nat
  avg_sentence_length : ℚ
deriving DecidableEq

/-- `DocumentRevisionAgent.get_content_stats` (src/revision_agent2.py
269-278): sentence segmentation by `re.split(r'[.!?]+', content)` with
empty-after-strip pieces dropped; the division is guarded by
`if sentences > 0`. -/
def getContentStats (content : Text) : Option ContentStats := do
  let words := (splitWords content).length
  let sentences := ((splitPunctRuns content).filter fun s => strip s ≠ []).length
  let avg ← if sentences > 0 then safeDiv (words : ℚ) (sentences : ℚ) else some 0
  some { words := words, sentences := sentences, avg_sentence_length := avg }

/-! ## Readability paths of src/textstat_analyzer.py (C5)

`analyze_readability_fixed` derives its score and assessment from the
Flesch reading-ease value computed by the external `textstat` library;
that value is therefore a parameter.  `fallback_readability_analysis`
computes everything from the content. -/

/-- Score bucketing of `analyze_readability_fixed` (lines 58-81). -/
def libEaseScore (ease : ℚ) : Nat :=
  if ease ≥ 80 then 95
  else if ease ≥ 70 then 85
  else if ease ≥ 60 then 75
  else if ease ≥ 50 then 60
  else if ease ≥ 30 then 40
  else 20

/-- Assessment labels of `analyze_readability_fixed` (lines 58-81). -/
def libEaseLevel (ease : ℚ) : String :=
  if ease ≥ 80 then "Very Easy - Perfect for marketers"
  else if ease ≥ 70 then "Easy - Good for marketers"
  else if ease ≥ 60 then "Standard - Acceptable for marketers"
  else if ease ≥ 50 then "Fairly Difficult - May challenge marketers"
  else if ease ≥ 30 then "Difficult - Too complex for marketers"
  else "Very Difficult - Inappropriate for marketers"

/-- Score bucketing of `fallback_readability_analysis` (lines 153-161),
a function of the average words per sentence. -/
def fallbackScoreOfAvg (avg : ℚ) : Nat :=
  if avg > 25 then 50 else if avg > 20 then 70 else 85

/-- Assessment labels of `fallback_readability_analysis` (lines 153-161). -/
def fallbackAssessmentOfAvg (avg : ℚ) : String :=
  if avg > 25 then "Complex - may be difficult for marketers"
  else if avg > 20 then "Moderate - acceptable for marketers"
  else "Good - appropriate for marketers"

/-- Result of the fallback readability path; the `analysis_method` tag of
the source is the constant "fallback_basic". -/
structure FallbackReadability where
  score : Nat
  assessment : String
  marketer_friendly : Bool
  avg_words_per_sentence : ℚ
  analysis_method : String
deriving DecidableEq

/-- `fallback_readability_analysis` (src/textstat_analyzer.py 140-179).
The division is guarded: `sentence_count = len(sentences) if sentences
else 1`. -/
def fallback_readability_analysis (content : Text) : FallbackReadability :=
  let words := splitWords content
  let sentences := sentencesOf content
  let wordCount := words.length
  let sentenceCount := if sentences = [] then 1 else sentences.length
  let avg : ℚ := (wordCount : ℚ) / (sentenceCount : ℚ)
  { score := fallbackScoreOfAvg avg
    assessment := fallbackAssessmentOfAvg avg
    marketer_friendly := decide (fallbackScoreOfAvg avg ≥ 70)
    avg_words_per_sentence := avg
    analysis_method := "fallback_basic" }

/-! ## Revision engine completeness pass (src/revision_agent2.py 117-135) -/

/-- One change-log entry (`log_change` drops the timestamp, which is not
part of the state the claims are about). -/
structure RevEntry where
  category : String
  description : String
deriving DecidableEq

/-- The fixed troubleshooting block appended by `improve_completeness`
(line 124). -/
def troubleshootingBlock : Text :=
  "\n\nTroubleshooting\n\nIf you encounter issues:\n- Check your permissions\n- Verify the data range selected\n- Contact support if problems persist".data

/-- The example sentence injected near "Key Metrics" (line 131). -/
def exampleBlock : Text :=
  "\n\nExample: If you sent 1,000 notifications to 500 users, your average notifications per user would be 2.0.".data

/-- `DocumentRevisionAgent.improve_completeness` (lines 117-135), returning
the revised text and the change-log entries the pass appends. -/
def improveCompleteness (content : Text) : Text × List RevEntry :=
  let step1 :=
    if containsSub "troubleshoot".data (toLowerT content) = false ∧
        containsSub "problem".data (toLowerT content) = false then
      (content ++ troubleshootingBlock,
       [RevEntry.mk "completeness" "Added Troubleshooting section"])
    else (content, ([] : List RevEntry))
  let rev1 := step1.1
  let step2 :=
    if containsSub "example".data (toLowerT rev1) = false ∧
        containsSub "for instance".data (toLowerT rev1) = false then
      if containsSub "Key Metrics".data rev1 then
        (replaceAll "Key Metrics".data
           ("Key Metrics".data ++ exampleBlock ++ "\n\nMetrics Overview".data) rev1,
         [RevEntry.mk "completeness" "Added usage example"])
      else (rev1, ([] : List RevEntry))
    else (rev1, ([] : List RevEntry))
  (step2.1, step1.2 ++ step2.2)

/-! ## The fixed seed article (src/web_scraper.py 227-271)

`MoEngageScraper.create_fallback_content`: plain text with 4 headings and
one ordered list of 4 items; this is the seed article the end-to-end claim
describes. -/

/-- Body text of the seed article (`create_fallback_content`, content). -/
def seedContent : Text :=
  "The Notification Received report helps you understand how many notifications your users have received across different channels like Push, Email, SMS, and In-app. This report provides insights into your notification distribution and user engagement patterns.\n\nTo access the Notification Received report, follow these steps:\n1. Navigate to Analytics dashboard\n2. Click on Reports in the left sidebar\n3. Select Notification Reports from the dropdown\n4. Choose \"Notifications Received by Users\" from the list\n\nThe report displays data in multiple formats:\n- Overall Distribution: Shows the percentage breakdown of users by notification count\n- Channel-wise Analysis: Breaks down notifications by channel\n- Time-based Trends: Shows how notification patterns change over time\n\nKey metrics include Total Notifications Sent, Unique Users Reached, Average Notifications per User, and Channel Distribution.".data

/-! ## Concrete inputs used by witnesses and counterexamples -/

/-- Content beginning with the pronoun "You" that the space-delimited
second-person check cannot see. -/
def c10Content : Text := "You can click here and select and navigate onward.".data

/-- A single sentence of 30 one-letter words: average sentence length 30. -/
def thirtyWordSentence : Text :=
  "a a a a a a a a a a a a a a a a a a a a a a a a a a a a a a.".data

/-- Text containing the completeness scorer's markers "such as" (example
marker) and "issue" (troubleshooting marker) but none of the markers the
revision pass checks for. -/
def c8Marked : Text := "Such as this, there is an issue.".data

/-- Text containing the markers the revision pass itself checks for. -/
def c8Compliant : Text := "For example, a problem.".data

/-- Concatenation of `n` copies of a text. -/
def repeatText : Nat → Text → Text
  | 0, _ => []
  | n + 1, t => t ++ repeatText n t

/-- A 300-word text that triggers no completeness issue: it contains
example, troubleshooting, prerequisite and business-value markers. -/
def compliantContent : Text :=
  repeatText 60 "benefit example troubleshoot before improve ".data

/-- Scraped structure data that triggers no structure issue: three headings,
one list, no paragraphs. -/
def demoScraped : ScrapedData :=
  { headings := [("h1", "A"), ("h2", "B"), ("h2", "C")]
    lists := [("ol", ["x"])]
    paragraphs := [] }

/-- Four dimension results producing ten raw action items, more than the
truncation limit of 8. -/
def demoResults : List (Category × Int × List String) :=
  [(Category.readability, 50, ["r1", "r2", "r3"]),
   (Category.structureDim, 65, ["s1", "s2", "s3"]),
   (Category.completeness, 65, ["c1", "c2"]),
   (Category.style, 80, ["t1", "t2"])]

/-! ## Properties of the stable descending sort -/

/-- Membership in an insertion. -/
lemma mem_insertDesc (a x : ActionItem) (l : List ActionItem) :
    x ∈ insertDesc a l ↔ x = a ∨ x ∈ l := by
  induction l with
  | nil => simp [insertDesc]
  | cons b bs ih =>
    simp only [insertDesc]
    split
    · simp only [List.mem_cons, ih]
      tauto
    · simp only [List.mem_cons]
      try tauto

/-- Keys cannot be strictly less in both directions. -/
lemma keyLt_asymm {p q : Nat × Nat} (h : keyLt p q = true) : keyLt q p = false := by
  simp only [keyLt, decide_eq_true_eq] at h
  simp only [keyLt, decide_eq_false_iff_not]
  omega

/-- Non-strict descending comparison is transitive. -/
lemma keyLt_false_trans {p q r : Nat × Nat} (h1 : keyLt p q = false) (h2 : keyLt q r = false) :
    keyLt p r = false := by
  simp only [keyLt, decide_eq_false_iff_not] at h1 h2 ⊢
  omega

/-- Keys of equal pairs are not strictly related. -/
lemma keyLt_irrefl {p q : Nat × Nat} (h : p = q) : keyLt p q = false := by
  subst h
  simp only [keyLt, decide_eq_false_iff_not]
  omega

/-- Insertion preserves the descending pairwise invariant. -/
lemma pairwise_insertDesc (a : ActionItem) (l : List ActionItem)
    (h : l.Pairwise fun x y => keyLt (itemKey x) (itemKey y) = false) :
    (insertDesc a l).Pairwise fun x y => keyLt (itemKey x) (itemKey y) = false := by
  induction l with
  | nil => simp [insertDesc]
  | cons b bs ih =>
    rcases List.pairwise_cons.mp h with ⟨hb, hbs⟩
    simp only [insertDesc]
    split
    · rename_i hlt
      refine List.pairwise_cons.mpr ⟨?_, ih hbs⟩
      intro x hx
      rcases (mem_insertDesc a x bs).mp hx with rfl | hxbs
      · exact keyLt_asymm hlt
      · exact hb x hxbs
    · rename_i hnlt
      replace hnlt : keyLt (itemKey a) (itemKey b) = false := by
        simpa using hnlt
      refine List.pairwise_cons.mpr ⟨?_, h⟩
      intro x hx
      rcases List.mem_cons.mp hx with rfl | hxbs
      · exact hnlt
      · exact keyLt_false_trans hnlt (hb x hxbs)

/-- The output of the sort is descending in the key. -/
lemma pairwise_sortDesc (l : List ActionItem) :
    (sortDesc l).Pairwise fun x y => keyLt (itemKey x) (itemKey y) = false := by
  induction l with
  | nil => simp [sortDesc]
  | cons a as ih => exact pairwise_insertDesc a (sortDesc as) ih

/-- Stability of insertion: restricting to any fixed key value, inserting an
element appends it in front exactly when it carries that key, leaving the
relative order of the others untouched. -/
lemma filter_insertDesc (a : ActionItem) (l : List ActionItem) (k : Nat × Nat) :
    (insertDesc a l).filter (fun x => decide (itemKey x = k)) =
      (if itemKey a = k then [a] else []) ++ l.filter (fun x => decide (itemKey x = k)) := by
  induction l with
  | nil =>
    simp only [insertDesc, List.filter]
    by_cases hak : itemKey a = k <;> simp [hak]
  | cons b bs ih =>
    simp only [insertDesc]
    split
    · rename_i hlt
      by_cases hak : itemKey a = k
      · have hbk : itemKey b ≠ k := by
          intro hbk
          have : keyLt (itemKey a) (itemKey b) = false := keyLt_irrefl (hak.trans hbk.symm)
          rw [this] at hlt
          cases hlt
        simp [List.filter_cons, hak, hbk, ih]
      · simp [List.filter_cons, hak, ih]
    · by_cases hak : itemKey a = k <;> simp [List.filter_cons, hak]

/-- Stability of the full sort: for every key value, the elements carrying
that key appear in the output in their original order. -/
lemma filter_sortDesc (l : List ActionItem) (k : Nat × Nat) :
    (sortDesc l).filter (fun x => decide (itemKey x = k)) =
      l.filter (fun x => decide (itemKey x = k)) := by
  induction l with
  | nil => rfl
  | cons a as ih =>
    simp only [sortDesc, filter_insertDesc, ih, List.filter_cons]
    by_cases hak : itemKey a = k <;> simp [hak]

/-! ## Per-check bound lemmas -/

/-- Bounds of the heading check penalty. -/
lemma headingCheck_bounds (n : Nat) : 0 ≤ (headingCheck n).1 ∧ (headingCheck n).1 ≤ 15 := by
  unfold headingCheck
  split_ifs <;> norm_num

/-- Bounds of the list check penalty. -/
lemma listCheck_bounds (l : List (String × List String)) :
    0 ≤ (listCheck l).1 ∧ (listCheck l).1 ≤ 10 := by
  unfold listCheck
  split_ifs <;> norm_num

/-- Bounds of the paragraph check penalty. -/
lemma paragraphCheck_bounds (ps : List Text) :
    0 ≤ (paragraphCheck ps).1 ∧ (paragraphCheck ps).1 ≤ 10 := by
  unfold paragraphCheck
  dsimp only
  split_ifs <;> norm_num

/-- Bounds of the step check penalty. -/
lemma stepCheck_bounds (content : Text) :
    0 ≤ (stepCheck content).1 ∧ (stepCheck content).1 ≤ 10 := by
  unfold stepCheck
  dsimp only
  split_ifs <;> norm_num

/-- Bounds of the word-count check penalty. -/
lemma wordCountCheck_bounds (wc : Nat) :
    0 ≤ (wordCountCheck wc).1 ∧ (wordCountCheck wc).1 ≤ 15 := by
  unfold wordCountCheck
  split_ifs <;> norm_num

/-- The readability-CRITICAL guard is off exactly when the category is not
readability or the score is at least 70. -/
lemma not_and_rule {c : Category} {s : Int} (hc : c ≠ Category.readability ∨ 70 ≤ s) :
    ¬ (c = Category.readability ∧ s < 70) := by
  intro h
  rcases hc with hc | hc
  · exact hc h.1
  · omega

/-! ## Claims -/

/-- C3: the readability score is an exact step function of the ease-of-reading
index: `ease ≥ 70 ↦ 95`, `60 ≤ ease < 70 ↦ 80`, `50 ≤ ease < 60 ↦ 65`,
`40 ≤ ease < 50 ↦ 45`, `ease < 40 ↦ 25`, with boundary values hit exactly. -/
theorem c3_readability_step_function :
    ∀ ease : ℚ,
      (70 ≤ ease → scoreOfEase ease = 95) ∧
      (60 ≤ ease → ease < 70 → scoreOfEase ease = 80) ∧
      (50 ≤ ease → ease < 60 → scoreOfEase ease = 65) ∧
      (40 ≤ ease → ease < 50 → scoreOfEase ease = 45) ∧
      (ease < 40 → scoreOfEase ease = 25) := by
  intro ease
  unfold scoreOfEase
  refine ⟨?_, ?_, ?_, ?_, ?_⟩ <;> intros <;> split_ifs <;> first | rfl | linarith

/-- Witness for C3 at the documented boundary values, in particular
`ease = 70.0 ↦ 95` and `ease = 69.999 ↦ 80`. -/
theorem c3_readability_step_function_witness :
    scoreOfEase 70 = 95 ∧ scoreOfEase (69.999 : ℚ) = 80 ∧ scoreOfEase 60 = 80 ∧
      scoreOfEase 50 = 65 ∧ scoreOfEase 40 = 45 ∧ scoreOfEase (39.999 : ℚ) = 25 :=
  ⟨(c3_readability_step_function 70).1 (by norm_num),
   (c3_readability_step_function 69.999).2.1 (by norm_num) (by norm_num),
   (c3_readability_step_function 60).2.1 (by norm_num) (by norm_num),
   (c3_readability_step_function 50).2.2.1 (by norm_num) (by norm_num),
   (c3_readability_step_function 40).2.2.2.1 (by norm_num) (by norm_num),
   (c3_readability_step_function 39.999).2.2.2.2 (by norm_num)⟩

/-- C2: the overall score is the dot product of the four dimension scores
with the fixed weights 0.40/0.20/0.25/0.15 (which sum to 1), rounded to one
decimal; for scores 90/80/85/75 it is 84.5, grade B, tier High, and the
grade and tier bucket boundaries are exact. -/
theorem c2_weighted_synthesis :
    weightOf .readability + weightOf .structureDim + weightOf .completeness + weightOf .style = 1 ∧
    weightedScore 90 80 85 75 = 84.5 ∧
    round1 (weightedScore 90 80 85 75) = 84.5 ∧
    calculate_grade (weightedScore 90 80 85 75) = "B" ∧
    accessibilityTier (weightedScore 90 80 85 75) = "High" ∧
    calculate_grade 90 = "A" ∧ calculate_grade (89.9 : ℚ) = "B" ∧ calculate_grade 80 = "B" ∧
    calculate_grade (79.9 : ℚ) = "C" ∧ calculate_grade 70 = "C" ∧
    calculate_grade (69.9 : ℚ) = "D" ∧ calculate_grade 60 = "D" ∧
    calculate_grade (59.9 : ℚ) = "F" ∧
    accessibilityTier 75 = "High" ∧ accessibilityTier (74.9 : ℚ) = "Medium" ∧
    accessibilityTier 60 = "Medium" ∧ accessibilityTier (59.9 : ℚ) = "Low" := by
  refine ⟨by norm_num [weightOf], by norm_num [weightedScore, weightOf], ?_, ?_, ?_, ?_, ?_, ?_,
    ?_, ?_, ?_, ?_, ?_, ?_, ?_, ?_, ?_⟩ <;>
    norm_num [weightedScore, weightOf, round1, roundHalfEven, calculate_grade, accessibilityTier]

/-- C9: the rich-path structure scorer applies only penalties to its base of
70 before clamping at 30, so for every input the structure score lies in
[30, 70] and in particular never reaches 100. -/
theorem c9_structure_score_bounds :
    ∀ (content : Text) (d : ScrapedData),
      30 ≤ (analyze_structure content d).score ∧ (analyze_structure content d).score ≤ 70 := by
  intro content d
  have h1 := headingCheck_bounds d.headings.length
  have h2 := listCheck_bounds d.lists
  have h3 := paragraphCheck_bounds d.paragraphs
  have h4 := stepCheck_bounds content
  unfold analyze_structure
  dsimp only
  omega

/-- C10: content that starts with the pronoun "You" (so second-person
language is present) but has no space-delimited " you "/" your " and no
contraction is missed by the detector: the style scorer still applies the
15-point penalty (75 - 15 = 60) and emits the add-second-person suggestion. -/
theorem c10_second_person_detection_gap :
    isPrefixT "You".data c10Content = true ∧
    containsSub "you".data (toLowerT c10Content) = true ∧
    hasSecondPerson c10Content = false ∧
    (analyze_style c10Content).score = 60 ∧
    (analyze_style c10Content).suggestions = [StSuggestion.useSecondPerson] := by
  decide

/-- C5 fails as stated: on a 30-word single-sentence text the fallback
readability path returns score 50 with the assessment "Complex - may be
difficult for marketers", values the library path can never produce for any
ease index, so the two paths do not share assessment buckets and are
distinguishable beyond the `analysis_method` tag. -/
theorem c5_paths_share_buckets_counterexample :
    (fallback_readability_analysis thirtyWordSentence).score = 50 ∧
    (fallback_readability_analysis thirtyWordSentence).assessment =
      "Complex - may be difficult for marketers" ∧
    (∀ ease : ℚ, libEaseScore ease ≠ 50) ∧
    (∀ ease : ℚ, libEaseLevel ease ≠ "Complex - may be difficult for marketers") := by
  have hw : (splitWords thirtyWordSentence).length = 30 := by decide
  have hs : ¬ sentencesOf thirtyWordSentence = [] := by decide
  have hsl : (sentencesOf thirtyWordSentence).length = 1 := by decide
  refine ⟨?_, ?_, ?_, ?_⟩
  · simp only [fallback_readability_analysis, fallbackScoreOfAvg, hw, hsl, if_neg hs]
    norm_num
  · simp only [fallback_readability_analysis, fallbackAssessmentOfAvg, hw, hsl, if_neg hs]
    norm_num
  · intro ease
    unfold libEaseScore
    split_ifs <;> decide
  · intro ease
    unfold libEaseLevel
    split_ifs <;> decide

/-- C5 amended: both readability paths of textstat_analyzer.py stay within
the 0-100 score range (library scores lie in [20, 95], fallback scores in
[50, 85]), but their assessment labels are always different, so a caller
can distinguish which path ran from the assessment alone. -/
theorem c5_paths_ranges_and_labels :
    ∀ ease avg : ℚ,
      20 ≤ libEaseScore ease ∧ libEaseScore ease ≤ 95 ∧ libEaseScore ease ≤ 100 ∧
      50 ≤ fallbackScoreOfAvg avg ∧ fallbackScoreOfAvg avg ≤ 85 ∧
        fallbackScoreOfAvg avg ≤ 100 ∧
      libEaseLevel ease ≠ fallbackAssessmentOfAvg avg := by
  intro ease avg
  refine ⟨?_, ?_, ?_, ?_, ?_, ?_, ?_⟩ <;>
    first
      | (unfold libEaseScore; split_ifs <;> norm_num)
      | (unfold fallbackScoreOfAvg; split_ifs <;> norm_num)
      | (unfold libEaseLevel fallbackAssessmentOfAvg; split_ifs <;> decide)

set_option maxRecDepth 40000 in
/-- C6 fails as stated: the seed article about the "Notifications Received"
report contains second-person language ("helps you understand", "your
users"), so the style scorer applies no second-person penalty: the style
score is 75, not at most 60, and the only style suggestion is the affirming
one, not a suggestion about adding second-person language. -/
theorem c6_seed_style_counterexample :
    (analyze_style seedContent).score = 75 ∧
    ¬ (analyze_style seedContent).score ≤ 60 ∧
    (analyze_style seedContent).suggestions = [StSuggestion.affirming] := by
  decide

set_option maxRecDepth 40000 in
/-- C6 amended: the seed article contains the space-delimited " you "
marker, second-person detection succeeds, and the style result is score 75
with exactly the single affirming suggestion. -/
theorem c6_seed_style_result :
    containsSub " you ".data (toLowerT seedContent) = true ∧
    hasSecondPerson seedContent = true ∧
    (analyze_style seedContent).score = 75 ∧
    (analyze_style seedContent).suggestions = [StSuggestion.affirming] := by
  decide

/-- C8 fails as stated: the text "Such as this, there is an issue." contains
an example marker ("such as") and a troubleshooting marker ("issue") of the
completeness scorer, yet the revision completeness pass — which only checks
for "troubleshoot"/"problem" and "example"/"for instance" — appends its
troubleshooting block and logs one completeness entry, changing the text. -/
theorem c8_completeness_pass_counterexample :
    hasExamples c8Marked = true ∧
    hasTroubleshooting c8Marked = true ∧
    (improveCompleteness c8Marked).2.length = 1 ∧
    ¬ (improveCompleteness c8Marked).1 = c8Marked := by
  decide

/-- C8 amended: the completeness pass is a no-op, producing the unchanged
text and an empty change log, whenever the text already contains one of
the markers the pass itself checks for each category: "example" or
"for instance", and "troubleshoot" or "problem" (case-insensitively). -/
theorem c8_completeness_pass_noop :
    ∀ content : Text,
      (containsSub "example".data (toLowerT content) = true ∨
        containsSub "for instance".data (toLowerT content) = true) →
      (containsSub "troubleshoot".data (toLowerT content) = true ∨
        containsSub "problem".data (toLowerT content) = true) →
      improveCompleteness content = (content, []) := by
  intro content h1 h2
  unfold improveCompleteness
  have hT : ¬ (containsSub "troubleshoot".data (toLowerT content) = false ∧
      containsSub "problem".data (toLowerT content) = false) := by
    rcases h2 with h | h <;> simp [h]
  have hE : ¬ (containsSub "example".data (toLowerT content) = false ∧
      containsSub "for instance".data (toLowerT content) = false) := by
    rcases h1 with h | h <;> simp [h]
  dsimp only
  rw [if_neg hT]
  dsimp only
  rw [if_neg hE]
  simp

/-- Witness for the amended C8 on a concrete compliant text. -/
theorem c8_completeness_pass_noop_witness :
    containsSub "example".data (toLowerT c8Compliant) = true ∧
    containsSub "problem".data (toLowerT c8Compliant) = true ∧
    improveCompleteness c8Compliant = (c8Compliant, []) :=
  ⟨by decide, by decide,
   c8_completeness_pass_noop c8Compliant (Or.inl (by decide)) (Or.inr (by decide))⟩

/-- C4: the ranker derives each item's priority from the dimension score
(readability below 70 is always CRITICAL; otherwise below 60 HIGH, below 80
MEDIUM, else LOW), stable-sorts all items by descending (priority rank,
expected impact) — ties keep encounter order — and returns at most the
first 8 items. -/
theorem c4_suggestion_ranker :
    ∀ (results : List (Category × Int × List String)) (c : Category) (s : Int),
      (c = .readability → s < 70 → priorityFor c s = .CRITICAL) ∧
      ((c ≠ .readability ∨ 70 ≤ s) → s < 60 → priorityFor c s = .HIGH) ∧
      ((c ≠ .readability ∨ 70 ≤ s) → 60 ≤ s → s < 80 → priorityFor c s = .MEDIUM) ∧
      ((c ≠ .readability ∨ 70 ≤ s) → 80 ≤ s → priorityFor c s = .LOW) ∧
      (sortDesc (rawActionItems results)).Pairwise
        (fun a b => keyLt (itemKey a) (itemKey b) = false) ∧
      (∀ k : Nat × Nat,
        (sortDesc (rawActionItems results)).filter (fun x => decide (itemKey x = k)) =
          (rawActionItems results).filter (fun x => decide (itemKey x = k))) ∧
      generate_action_items results = (sortDesc (rawActionItems results)).take 8 ∧
      (generate_action_items results).length ≤ 8 := by
  intro results c s
  refine ⟨?_, ?_, ?_, ?_, pairwise_sortDesc _, filter_sortDesc _, rfl, ?_⟩
  · intro hc hs
    unfold priorityFor
    rw [if_pos ⟨hc, hs⟩]
  · intro hc hs
    unfold priorityFor
    rw [if_neg (not_and_rule hc), if_pos hs]
  · intro hc h60 h80
    unfold priorityFor
    rw [if_neg (not_and_rule hc), if_neg (by omega), if_pos h80]
  · intro hc h80
    unfold priorityFor
    rw [if_neg (not_and_rule hc), if_neg (by omega), if_neg (by omega)]
  · unfold generate_action_items
    calc ((sortDesc (rawActionItems results)).take 8).length
        ≤ 8 := by
          rw [List.length_take]
          omega

/-- Witness for C4: each priority bucket exercised at a concrete score, and
the ranker truncating ten concrete items to at most eight. -/
theorem c4_suggestion_ranker_witness :
    priorityFor .readability 50 = .CRITICAL ∧
    priorityFor .style 50 = .HIGH ∧
    priorityFor .style 70 = .MEDIUM ∧
    priorityFor .style 90 = .LOW ∧
    (rawActionItems demoResults).length = 10 ∧
    (generate_action_items demoResults).length ≤ 8 :=
  ⟨(c4_suggestion_ranker [] .readability 50).1 rfl (by norm_num),
   (c4_suggestion_ranker [] .style 50).2.1 (Or.inl (by decide)) (by norm_num),
   (c4_suggestion_ranker [] .style 70).2.2.1 (Or.inl (by decide)) (by norm_num) (by norm_num),
   (c4_suggestion_ranker [] .style 90).2.2.2.1 (Or.inl (by decide)) (by norm_num),
   by decide,
   (c4_suggestion_ranker demoResults .style 90).2.2.2.2.2.2.2⟩

/-- C7: the claim holds for every division the cited functions perform —
`_assess_complexity`, the readability fallback metrics and
`get_content_stats` guard their divisions and always return — but
`AdvancedAnalyzer.calculate_readability_score` divides by the word count
without a guard: on text with no words (for example the empty string) it
raises `ZeroDivisionError`, embedded here as `none`. -/
theorem c7_divide_by_zero_guards :
    llmCalculateReadabilityScore [] 0 = none ∧
    (∀ content : Text,
      (assessComplexity content).isSome ∧
      (getContentStats content).isSome ∧
      (agent1FallbackMetrics content).isSome) := by
  constructor
  · decide
  · intro content
    refine ⟨?_, ?_, ?_⟩
    · unfold assessComplexity
      by_cases hw : splitWords content = [] <;>
        by_cases hs : sentencesOf content = [] <;>
          simp [hw, hs, safeDiv, List.length_eq_zero, Option.bind]
    · unfold getContentStats
      dsimp only
      split
      · rename_i hs
        simp only [safeDiv]
        rw [if_neg ?_]
        · simp
        · intro h
          rw [Nat.cast_eq_zero] at h
          omega
      · simp
    · unfold agent1FallbackMetrics
      by_cases hs : sentencesOf content = [] <;>
        simp [hs, safeDiv, List.length_eq_zero, Option.bind]

/-- C1: each of the four dimension scorers stays within its documented
floor and ceiling (readability in [25, 100], structure and completeness in
[30, 100], style in [40, 100]; the AdvancedAnalyzer readability clamp keeps
any returned score in [20, 100]), every suggestion list is nonempty, and a
dimension with no detected issue yields exactly the one affirming
suggestion. -/
theorem c1_scorer_invariants :
    ∀ (content : Text) (fk fog ease : ℚ) (d : ScrapedData),
      (25 ≤ (analyze_readability content fk fog ease).score ∧
        (analyze_readability content fk fog ease).score ≤ 100 ∧
        (analyze_readability content fk fog ease).suggestions ≠ [] ∧
        (fk ≤ 10 → fog ≤ 12 → detectJargon content = [] → longSentences content = [] →
          (analyze_readability content fk fog ease).suggestions = [RSuggestion.affirming])) ∧
      (30 ≤ (analyze_structure content d).score ∧
        (analyze_structure content d).score ≤ 100 ∧
        (analyze_structure content d).suggestions ≠ [] ∧
        (3 ≤ d.headings.length → d.headings.length ≤ 8 → d.lists ≠ [] →
          d.paragraphs.filter (fun p => (splitWords p).length > 100) = [] →
          (containsSub "how to".data (toLowerT content) = false ∨
            containsSub "1.".data content = true ∨
            containsSub "step".data (toLowerT content) = true) →
          (analyze_structure content d).suggestions = [SSuggestion.affirming])) ∧
      (30 ≤ (analyze_completeness content).score ∧
        (analyze_completeness content).score ≤ 100 ∧
        (analyze_completeness content).suggestions ≠ [] ∧
        (hasExamples content = true → hasTroubleshooting content = true →
          hasPrerequisites content = true → hasBusinessValue content = true →
          300 ≤ (splitWords content).length → (splitWords content).length ≤ 2000 →
          (analyze_completeness content).suggestions = [CSuggestion.affirming])) ∧
      (40 ≤ (analyze_style content).score ∧
        (analyze_style content).score ≤ 100 ∧
        (analyze_style content).suggestions ≠ [] ∧
        (hasSecondPerson content = true → 3 ≤ actionCount content →
          passiveCount content ≤ 3 → wordyFound content = [] →
          loginInconsistent content = false →
          (analyze_style content).suggestions = [StSuggestion.affirming])) ∧
      (∀ (avg : ℚ) (r : Int),
        llmCalculateReadabilityScore content avg = some r → 20 ≤ r ∧ r ≤ 100) := by
  intro content fk fog ease d
  refine ⟨⟨?_, ?_, ?_, ?_⟩, ⟨?_, ?_, ?_, ?_⟩, ⟨?_, ?_, ?_, ?_⟩, ⟨?_, ?_, ?_, ?_⟩, ?_⟩
  -- readability score lower bound
  · unfold analyze_readability scoreOfEase
    dsimp only
    split_ifs <;> norm_num
  -- readability score upper bound
  · unfold analyze_readability scoreOfEase
    dsimp only
    split_ifs <;> norm_num
  -- readability suggestions nonempty
  · unfold analyze_readability readabilitySuggestions
    dsimp only
    split_ifs <;> simp_all
  -- readability affirming when no issue
  · intro h1 h2 h3 h4
    unfold analyze_readability readabilitySuggestions
    dsimp only
    simp [not_lt.mpr h1, not_lt.mpr h2, h3, h4]
  -- structure score lower bound
  · have hb1 := headingCheck_bounds d.headings.length
    have hb2 := listCheck_bounds d.lists
    have hb3 := paragraphCheck_bounds d.paragraphs
    have hb4 := stepCheck_bounds content
    unfold analyze_structure
    dsimp only
    omega
  -- structure score upper bound
  · have hb1 := headingCheck_bounds d.headings.length
    have hb2 := listCheck_bounds d.lists
    have hb3 := paragraphCheck_bounds d.paragraphs
    have hb4 := stepCheck_bounds content
    unfold analyze_structure
    dsimp only
    omega
  -- structure suggestions nonempty
  · unfold analyze_structure
    dsimp only
    split_ifs <;> simp_all
  -- structure affirming when no issue
  · intro h1 h2 h3 h4 h5
    have hh : headingCheck d.headings.length = (0, []) := by
      unfold headingCheck
      rw [if_neg (by omega), if_neg (by omega)]
    have hl : listCheck d.lists = (0, []) := by
      unfold listCheck
      rw [if_neg h3]
    have hp : paragraphCheck d.paragraphs = (0, []) := by
      unfold paragraphCheck
      dsimp only
      by_cases hps : d.paragraphs ≠ []
      · rw [if_pos hps, if_neg (by simp [h4])]
      · rw [if_neg hps]
    have hs : stepCheck content = (0, []) := by
      unfold stepCheck
      dsimp only
      rw [if_neg ?_]
      intro hcontr
      rcases h5 with h | h | h
      · rw [h] at hcontr
        exact absurd hcontr.1 (by simp)
      · rw [h] at hcontr
        simp at hcontr
      · rw [h] at hcontr
        simp at hcontr
    unfold analyze_structure
    dsimp only
    rw [hh, hl, hp, hs]
    simp
  -- completeness score lower bound
  · unfold analyze_completeness wordCountCheck
    dsimp only
    split_ifs <;> norm_num
  -- completeness score upper bound
  · unfold analyze_completeness wordCountCheck
    dsimp only
    split_ifs <;> norm_num
  -- completeness suggestions nonempty
  · unfold analyze_completeness
    dsimp only
    split_ifs <;> simp_all
  -- completeness affirming when no issue
  · intro he ht hp hb hwc1 hwc2
    have hwcc : wordCountCheck (splitWords content).length = (0, []) := by
      unfold wordCountCheck
      rw [if_neg (by omega), if_neg (by omega)]
    unfold analyze_completeness
    dsimp only
    simp [he, ht, hp, hb, hwcc]
  -- style score lower bound
  · unfold analyze_style
    dsimp only
    split_ifs <;> norm_num
  -- style score upper bound
  · unfold analyze_style
    dsimp only
    split_ifs <;> norm_num
  -- style suggestions nonempty
  · unfold analyze_style
    dsimp only
    split_ifs <;> simp_all
  -- style affirming when no issue
  · intro hsp hac hpv hwd hlg
    have h2 : ¬ (actionCount content < 3) := by omega
    have h3 : ¬ (passiveCount content > 3) := by omega
    unfold analyze_style
    dsimp only
    simp [hsp, h2, h3, hwd, hlg]
  -- AdvancedAnalyzer readability clamp
  · intro avg r h
    unfold llmCalculateReadabilityScore at h
    dsimp only at h
    cases hsd : safeDiv
        (((splitWords content).filter fun w => w.length > 8).length : ℚ)
        ((splitWords content).length : ℚ) with
    | none =>
      rw [hsd] at h
      simp at h
    | some q =>
      rw [hsd] at h
      simp at h
      split_ifs at h <;> omega

/-- Concrete evaluation of the AdvancedAnalyzer readability scorer on a
one-word text: no penalty fires and the clamp returns 80. -/
lemma llm_hello_eval : llmCalculateReadabilityScore "hello".data 0 = some 80 := by
  have hw : splitWords "hello".data = ["hello".data] := by decide
  have hj : (llmJargonTerms.filter fun t => containsSub t.data (toLowerT "hello".data)).length = 0 := by
    decide
  unfold llmCalculateReadabilityScore
  dsimp only
  rw [hw, hj]
  have hf : (["hello".data] : List Text).filter (fun w => w.length > 8) = [] := by decide
  rw [hf]
  norm_num [safeDiv]

set_option maxRecDepth 400000 in
/-- Witness for C1: a concrete no-issue input for each dimension produces
exactly the affirming suggestion, and a concrete AdvancedAnalyzer
readability result lies in [20, 100]. -/
theorem c1_scorer_invariants_witness :
    (analyze_readability "Short and simple.".data 5 5 80).suggestions = [RSuggestion.affirming] ∧
    (analyze_structure "Just text.".data demoScraped).suggestions = [SSuggestion.affirming] ∧
    (analyze_completeness compliantContent).suggestions = [CSuggestion.affirming] ∧
    (analyze_style "Hello you can click and select and navigate now.".data).suggestions =
      [StSuggestion.affirming] ∧
    (20 ≤ (80 : Int) ∧ (80 : Int) ≤ 100) :=
  ⟨(c1_scorer_invariants "Short and simple.".data 5 5 80 demoScraped).1.2.2.2
      (by norm_num) (by norm_num) (by decide) (by decide),
   (c1_scorer_invariants "Just text.".data 5 5 80 demoScraped).2.1.2.2.2
      (by decide) (by decide) (by decide) (by decide) (Or.inl (by decide)),
   (c1_scorer_invariants compliantContent 5 5 80 demoScraped).2.2.1.2.2.2
      (by decide) (by decide) (by decide) (by decide) (by decide) (by decide),
   (c1_scorer_invariants "Hello you can click and select and navigate now.".data
        5 5 80 demoScraped).2.2.2.1.2.2.2
      (by decide) (by decide) (by decide) (by decide) (by decide),
   (c1_scorer_invariants "hello".data 5 5 80 demoScraped).2.2.2.2 0 80 llm_hello_eval⟩

end DocAnalyzer
